import Mathlib

/-!
Verification of the Attendance Aggregation engine of `src/app.py`
(RaeMarvins/attendance-gamification).

Shallow embedding conventions:
* Times of day are minutes since midnight (`Nat`); `LATE_TIME = time(8, 0)` is 480.
* Dates are `(year, month, day)` triples.  ISO week number/year (pandas
  `dt.isocalendar()`, a calendar-library call) are carried as upstream-normalized
  fields of the raw row, exactly like the already-parsed date and time values.
* pandas DataFrames are lists of row structures; column assignment is modelled
  by functional record update, and the in-place column assignments of
  `compare_staff_lists` are modelled by returning the updated input tables.
* Python string operations are modelled over `List Char`: `str.strip`/`str.upper`
  on ASCII data, and code-point lexicographic comparison (Python's `<` on `str`,
  which is also how pandas sorts a plain string column).
* Float-valued display percentages (`round(x, 1)`) are modelled in tenths with
  truncating division; no verified property depends on the rounding mode.
  The display-only fields `date_range`, `total_days_covered` and
  `avg_daily_attendance` of `calculate_kpis` are omitted: no claim mentions
  them and they require no logic beyond calendar arithmetic.
-/

/-! ## String primitives (model of the Python string operations used) -/

/-- Uppercase one ASCII letter, as Python `str.upper` does on ASCII data. -/
def upChar (c : Char) : Char :=
  if 'a' ≤ c ∧ c ≤ 'z' then Char.ofNat (c.toNat - 32) else c

/-- Whitespace test used by Python `str.strip`. -/
def isWS (c : Char) : Bool := c = ' ' || c = '\t' || c = '\n' || c = '\r'

/-- Model of `str.upper`. -/
def strUpper (s : String) : String := ⟨s.data.map upChar⟩

/-- Model of `str.strip`: drop whitespace from both ends. -/
def strStrip (s : String) : String :=
  ⟨((s.data.dropWhile isWS).reverse.dropWhile isWS).reverse⟩

/-- Name normalization used throughout `app.py`:
`.astype(str).str.strip().str.upper()`. -/
def cleanName (s : String) : String := strUpper (strStrip s)

/-- Code-point lexicographic `<` on character lists (Python string comparison). -/
def charListLt : List Char → List Char → Bool
  | [], [] => false
  | [], _ :: _ => true
  | _ :: _, [] => false
  | a :: as, b :: bs =>
    if a.toNat < b.toNat then true
    else if b.toNat < a.toNat then false
    else charListLt as bs

/-- Python `a < b` on strings. -/
def strLtB (a b : String) : Bool := charListLt a.data b.data

/-- Python `a <= b` on strings. -/
def strLeB (a b : String) : Bool := !(strLtB b a)

/-- Model of `int(...)` on a well-formed decimal digit string. -/
def digitsToNat (cs : List Char) : Nat :=
  cs.foldl (fun n c => n * 10 + (c.toNat - 48)) 0

/-! ## Dates, times, period labels -/

/-- Time of day in minutes since midnight. -/
abbrev Time := Nat

/-- `LATE_TIME = time(8, 0)` (app.py line 16): 8:00 AM. -/
def LATE_TIME : Time := 480

/-- Calendar date. -/
structure Date where
  year : Nat
  month : Nat
  day : Nat
deriving DecidableEq, Repr

/-- Month abbreviation as produced by `strftime("%b %Y")`. -/
def monthAbbrev : Nat → String
  | 1 => "Jan" | 2 => "Feb" | 3 => "Mar" | 4 => "Apr"
  | 5 => "May" | 6 => "Jun" | 7 => "Jul" | 8 => "Aug"
  | 9 => "Sep" | 10 => "Oct" | 11 => "Nov" | 12 => "Dec"
  | _ => ""

/-- The `month_year` column: `df["date"].dt.strftime("%b %Y")` (app.py line 88). -/
def month_year_label (d : Date) : String :=
  monthAbbrev d.month ++ " " ++ Nat.repr d.year

/-- The `week_identifier` column:
`week_year.astype(str) + "-W" + week_num.astype(str)` (app.py line 83). -/
def week_label_of (week_year week_num : Nat) : String :=
  Nat.repr week_year ++ "-W" ++ Nat.repr week_num

/-! ## The fact table (`process_excel_file`) -/

/-- One row of an uploaded attendance file after the upstream cell parsing of
lines 45-69 of app.py (header normalization, `pd.to_datetime`, `convert_time`,
`dt.isocalendar()`): date and time fields are real values, `sign_in_time` is
`none` where `convert_time` produced null. -/
structure RawRow where
  person_id : Nat
  name : String
  department : String
  date : Date
  week_num : Nat
  week_year : Nat
  sign_in_time : Option Time
  sign_out_time : Option Time
deriving DecidableEq, Repr

/-- One attendance fact, i.e. one row of the processed DataFrame returned by
`process_excel_file`.  `name_clean` models the column that
`compare_staff_lists` later assigns in place (absent, i.e. `none`, on the
fresh fact table). -/
structure AttFact where
  name : String
  department : String
  date : Date
  sign_in_time : Time
  month_year : String
  week_label : String
  late : Bool
  on_time : Bool
  name_clean : Option String := none
deriving DecidableEq, Repr

/-- app.py lines 71-95: drop rows with null `sign_in_time`, then derive the
period labels and the `late` / `on_time` columns
(`late = sign_in_time > LATE_TIME`, `on_time = ~late`). -/
def process_excel_file (rows : List RawRow) : List AttFact :=
  rows.filterMap (fun r =>
    match r.sign_in_time with
    | none => none
    | some t =>
      some { name := r.name
             department := r.department
             date := r.date
             sign_in_time := t
             month_year := month_year_label r.date
             week_label := week_label_of r.week_year r.week_num
             late := decide (t > LATE_TIME)
             on_time := !decide (t > LATE_TIME)
             name_clean := none })

/-! ## Concrete sample data used by witnesses and counterexamples -/

/-- An on-time sign-in (7:30) on 2025-01-15 for ALICE. -/
def rawAlice : RawRow :=
  { person_id := 1, name := "ALICE", department := "OPS"
    date := ⟨2025, 1, 15⟩, week_num := 3, week_year := 2025
    sign_in_time := some 450, sign_out_time := some 1020 }

/-- A row whose sign-in cell failed to parse (null): excluded from scoring. -/
def rawNoSignIn : RawRow :=
  { person_id := 2, name := "BOB", department := "OPS"
    date := ⟨2025, 1, 15⟩, week_num := 3, week_year := 2025
    sign_in_time := none, sign_out_time := none }

/-- The fact `process_excel_file` derives from `rawAlice`. -/
def factAlice : AttFact :=
  { name := "ALICE", department := "OPS", date := ⟨2025, 1, 15⟩
    sign_in_time := 450, month_year := "Jan 2025", week_label := "2025-W3"
    late := false, on_time := true, name_clean := none }

/-! ## Duplicate removal (pandas `unique()` / `drop_duplicates()`, keep-first) -/

/-- Helper for `dedupFirst`: accumulate the values already seen. -/
def dedupAux [DecidableEq α] (seen : List α) : List α → List α
  | [] => []
  | x :: xs => if x ∈ seen then dedupAux seen xs else x :: dedupAux (x :: seen) xs

/-- First-occurrence deduplication, the semantics of pandas `Series.unique()`
and `DataFrame.drop_duplicates()`. -/
def dedupFirst [DecidableEq α] (l : List α) : List α := dedupAux [] l

/-! ## Roster and the Roster Reconciler (`compare_staff_lists`) -/

/-- One row of the processed staff master list (`process_staff_list`).
`name_clean` models the column `compare_staff_lists` assigns in place. -/
structure RosterEntry where
  person_id : Nat
  name : String
  department : String
  name_clean : Option String := none
deriving DecidableEq, Repr

/-- One row of `merged_df` (app.py lines 189-222): a roster entry annotated
with its aggregate attendance counts. -/
structure MergedRow where
  person_id : Nat
  name : String
  department : String
  name_clean : String
  total_days : Nat
  on_time_days : Nat
  late_days : Nat
  on_time_percentage : Nat
  attendance_status : String
deriving DecidableEq, Repr

/-- app.py lines 213-217: `round(on_time_days / total_days * 100, 1)` when
`total_days > 0`, else the sentinel `0`; in tenths of a percent. -/
def pct_calc (on_time_days total_days : Nat) : Nat :=
  if total_days > 0 then on_time_days * 1000 / total_days else 0

/-- app.py lines 220-222: `'Regular' if x >= 3 else ('Occasional' if x > 0
else 'Non-Attending')`. -/
def attendance_status_of (total_days : Nat) : String :=
  if total_days ≥ 3 then "Regular"
  else if total_days > 0 then "Occasional"
  else "Non-Attending"

/-- The in-place assignment `attendance_df['name_clean'] = ...` (line 168). -/
def withClean (f : AttFact) : AttFact := { f with name_clean := some (cleanName f.name) }

/-- The in-place assignment `staff_list_df['name_clean'] = ...` (line 169). -/
def withCleanR (e : RosterEntry) : RosterEntry := { e with name_clean := some (cleanName e.name) }

/-- Everything `compare_staff_lists` leaves behind: the two input tables as
they stand after the call (the code assigns a `name_clean` column to both
inputs in place, so the post-call tables are part of the observable state)
and the three returned frames. -/
structure CompareOut where
  attendance_after : List AttFact
  staff_list_after : List RosterEntry
  merged : List MergedRow
  non_attending : List RosterEntry
  attendance_only : List (String × String)
deriving DecidableEq, Repr

/-- app.py lines 162-224.  Early-returns three empty frames when either input
is empty (before any column assignment); otherwise assigns `name_clean` to
both inputs, partitions the roster by whether its normalized name appears in
the attendance data, collects the distinct `(name, department)` pairs of
facts whose normalized name is missing from the roster, and left-merges the
roster with the per-name aggregate counts (missing matches filled with 0). -/
def compare_staff_lists (attendance_df : List AttFact)
    (staff_list_df : List RosterEntry) : CompareOut :=
  if attendance_df.isEmpty || staff_list_df.isEmpty then
    ⟨attendance_df, staff_list_df, [], [], []⟩
  else
    let attendance' := attendance_df.map withClean
    let staff_list' := staff_list_df.map withCleanR
    let attending_staff := dedupFirst (attendance'.map (fun f => cleanName f.name))
    let all_staff := dedupFirst (staff_list'.map (fun e => cleanName e.name))
    let non_attending :=
      staff_list'.filter (fun e => !(attending_staff.contains (cleanName e.name)))
    let attendance_only := dedupFirst
      ((attendance'.filter (fun f => !(all_staff.contains (cleanName f.name)))).map
        (fun f => (f.name, f.department)))
    let merged := staff_list'.map (fun e =>
      let fs := attendance'.filter (fun f => cleanName f.name = cleanName e.name)
      { person_id := e.person_id, name := e.name, department := e.department
        name_clean := cleanName e.name
        total_days := fs.length
        on_time_days := (fs.filter (fun f => f.on_time)).length
        late_days := (fs.filter (fun f => f.late)).length
        on_time_percentage :=
          pct_calc (fs.filter (fun f => f.on_time)).length fs.length
        attendance_status := attendance_status_of fs.length })
    ⟨attendance', staff_list', merged, non_attending, attendance_only⟩

/-- Roster entry for ALICE (matches `factAlice`). -/
def rosterAliceE : RosterEntry := { person_id := 1, name := "ALICE", department := "OPS" }

/-- Roster entry for CAROL (matches no fact). -/
def rosterCarol : RosterEntry := { person_id := 3, name := "CAROL", department := "OPS" }

/-- A late (8:20) sign-in for DANA, who is on no roster. -/
def factDana : AttFact :=
  { name := "DANA", department := "OPS", date := ⟨2025, 1, 16⟩
    sign_in_time := 500, month_year := "Jan 2025", week_label := "2025-W3"
    late := true, on_time := false, name_clean := none }

/-- The columns of a fact other than `name_clean` (used to express that the
in-place column assignment of `compare_staff_lists` alters nothing else). -/
def stripClean (f : AttFact) : AttFact := { f with name_clean := none }

/-- The columns of a roster entry other than `name_clean`. -/
def stripCleanR (e : RosterEntry) : RosterEntry := { e with name_clean := none }

/-! ## KPI Calculator (`calculate_kpis`) -/

/-- app.py line 309: `round((attending / total_staff_in_list) * 100, 1) if
total_staff_in_list > 0 else 0`, in tenths of a percent. -/
def attendance_rate_calc (attending total_staff_in_list : Nat) : Nat :=
  if total_staff_in_list > 0 then attending * 1000 / total_staff_in_list else 0

/-- The KPI dictionary built by `calculate_kpis`.  The four roster-comparison
keys exist only when a staff list was supplied (`Option`); `absent_today` and
`non_attending_staff` are signed because the code computes them with Python
integer subtraction before clamping with `max(0, ...)`. -/
structure KPIs where
  total_staff : Nat
  present_today : Nat
  absent_today : Int
  avg_signins : Nat
  total_on_time : Nat
  total_late : Nat
  on_time_rate : Nat
  total_signins : Nat
  total_staff_in_list : Option Nat
  attending_staff : Option Nat
  non_attending_staff : Option Int
  attendance_rate : Option Nat
deriving DecidableEq, Repr

/-- app.py lines 226-319.  `today` is the `datetime.date.today()` clock value,
modelled as an explicit parameter.  An absent (`None`) staff list and an empty
one behave identically in the code, so both are modelled by `[]`.  Rates are
in tenths (`avg_signins`: tenths of a sign-in; the two rates: tenths of a
percent). -/
def calculate_kpis (df : List AttFact) (staff_list_df : List RosterEntry)
    (today : Date) : KPIs :=
  if df.isEmpty then
    { total_staff := 0, present_today := 0, absent_today := 0, avg_signins := 0
      total_on_time := 0, total_late := 0, on_time_rate := 0, total_signins := 0
      total_staff_in_list :=
        if staff_list_df.isEmpty then none else some staff_list_df.length
      attending_staff := if staff_list_df.isEmpty then none else some 0
      non_attending_staff :=
        if staff_list_df.isEmpty then none else some (staff_list_df.length : Int)
      attendance_rate := if staff_list_df.isEmpty then none else some 0 }
  else
    let attending_staff_count := (dedupFirst (df.map (fun f => f.name))).length
    let today_data := df.filter (fun f => f.date = today)
    let present_today := (dedupFirst (today_data.map (fun f => f.name))).length
    let avg_signins := df.length * 10 / attending_staff_count
    let total_on_time := (df.filter (fun f => f.on_time)).length
    let total_late := (df.filter (fun f => f.late)).length
    let total_signins := total_on_time + total_late
    let on_time_rate :=
      if total_signins > 0 then total_on_time * 1000 / total_signins else 0
    if staff_list_df.isEmpty then
      { total_staff := attending_staff_count, present_today := present_today
        absent_today := 0, avg_signins := avg_signins
        total_on_time := total_on_time, total_late := total_late
        on_time_rate := on_time_rate, total_signins := total_signins
        total_staff_in_list := none, attending_staff := none
        non_attending_staff := none, attendance_rate := none }
    else
      { total_staff := attending_staff_count, present_today := present_today
        absent_today :=
          max 0 ((staff_list_df.length : Int) - (present_today : Int))
        avg_signins := avg_signins
        total_on_time := total_on_time, total_late := total_late
        on_time_rate := on_time_rate, total_signins := total_signins
        total_staff_in_list := some staff_list_df.length
        attending_staff := some attending_staff_count
        non_attending_staff :=
          some (max 0 ((staff_list_df.length : Int) - (attending_staff_count : Int)))
        attendance_rate :=
          some (attendance_rate_calc attending_staff_count staff_list_df.length) }

/-- The date 2025-01-16 used as the clock value in concrete checks. -/
def today0 : Date := ⟨2025, 1, 16⟩

/-! ## Scoring Rules (points) -/

/-- Modelled from the spec: the gamification Scoring Rules (the configurable
point weights `POINTS_ON_TIME` and `POINTS_LATE`) are not present in
`src/app.py`; spec §3 and §6 define them as configuration with defaults 10
and 2. -/
structure ScoringConfig where
  points_on_time : Nat
  points_late : Nat
deriving DecidableEq, Repr

/-- Modelled from the spec: the default point weights (spec §3,
"`points` = `on_time_count * POINTS_ON_TIME + late_count * POINTS_LATE`
(defaults 10 and 2)"). -/
def defaultScoring : ScoringConfig := { points_on_time := 10, points_late := 2 }

/-- Modelled from the spec: `PersonAggregate` (spec §3), the per-person
record produced by the Per-Person Aggregator with its `points` field. -/
structure PersonAggregate where
  name : String
  department : String
  sign_in_count : Nat
  on_time_count : Nat
  late_count : Nat
  points : Nat
deriving DecidableEq, Repr

/-- Modelled from the spec: the Per-Person Aggregator (spec §4.1) reducing
one person's facts to counts, combined with the §3 points formula. -/
def personAggregate (cfg : ScoringConfig) (nm dept : String)
    (facts : List AttFact) : PersonAggregate :=
  let ot := (facts.filter (fun f => f.on_time)).length
  let lt := (facts.filter (fun f => f.late)).length
  { name := nm, department := dept, sign_in_count := facts.length
    on_time_count := ot, late_count := lt
    points := ot * cfg.points_on_time + lt * cfg.points_late }

/-- Modelled from the spec: the points a merged leaderboard row is worth
under the default weights (used to test the leaderboard ordering claim
against the sort key the code actually uses). -/
def pointsOf (r : MergedRow) : Nat :=
  r.on_time_days * defaultScoring.points_on_time
    + r.late_days * defaultScoring.points_late

/-! ## Leaderboard Builder (`create_attendance_leaderboard` and fallback) -/

/-- The descending two-key order of
`merged_df.sort_values(by=["total_days", "on_time_percentage"],
ascending=[False, False])` (app.py lines 331-334): `a` may precede `b`. -/
def ldRel (a b : MergedRow) : Prop :=
  b.total_days < a.total_days
    ∨ (a.total_days = b.total_days ∧ b.on_time_percentage ≤ a.on_time_percentage)

instance : DecidableRel ldRel := fun a b =>
  inferInstanceAs (Decidable (b.total_days < a.total_days
    ∨ (a.total_days = b.total_days ∧ b.on_time_percentage ≤ a.on_time_percentage)))

instance : IsTotal MergedRow ldRel :=
  ⟨fun a b => by unfold ldRel; omega⟩

instance : IsTrans MergedRow ldRel :=
  ⟨fun a b c hab hbc => by unfold ldRel at *; omega⟩

/-- `leaderboard.insert(0, "rank", range(1, len(leaderboard) + 1))`
(app.py lines 337 and 577): tag each row with its 1-based position. -/
def addRankFrom {α : Type} (k : Nat) : List α → List (Nat × α)
  | [] => []
  | x :: xs => (k, x) :: addRankFrom (k + 1) xs

/-- Rank column starting at 1. -/
def addRank {α : Type} (l : List α) : List (Nat × α) := addRankFrom 1 l

/-- app.py lines 321-349: empty merged frame gives an empty leaderboard;
otherwise sort by total days then on-time percentage, both descending, and
insert the 1-based `rank` row-number column.  (The final `display_cols`
selection is presentational; every modelled column is kept.) -/
def create_attendance_leaderboard (merged_df : List MergedRow) :
    List (Nat × MergedRow) :=
  if merged_df.isEmpty then []
  else addRank (List.insertionSort ldRel merged_df)

/-- One row of the fallback `attendance_stats` frame (app.py lines 562-574). -/
structure AttStatsRow where
  name : String
  department : String
  total_days : Nat
  on_time_days : Nat
  late_days : Nat
  on_time_percentage : Nat
  attendance_status : String
deriving DecidableEq, Repr

/-- app.py lines 562-574: when no roster is supplied, group the facts by
`(name, department)` and count sign-ins / on-time / late per group.  The
unguarded percentage of lines 569-571 divides by `total_days`, which is at
least 1 for every group.  pandas sorts the groupby keys, but the rows are
re-sorted by `total_days` immediately afterwards, so the model keeps
first-encounter key order. -/
def attendance_stats (df : List AttFact) : List AttStatsRow :=
  (dedupFirst (df.map (fun f => (f.name, f.department)))).map (fun nd =>
    let fs := df.filter (fun f => f.name = nd.1 ∧ f.department = nd.2)
    { name := nd.1, department := nd.2
      total_days := fs.length
      on_time_days := (fs.filter (fun f => f.on_time)).length
      late_days := (fs.filter (fun f => f.late)).length
      on_time_percentage := (fs.filter (fun f => f.on_time)).length * 1000 / fs.length
      attendance_status := attendance_status_of fs.length })

/-- The single-key descending order of
`attendance_stats.sort_values("total_days", ascending=False)` (line 576). -/
def fbRel (a b : AttStatsRow) : Prop := b.total_days ≤ a.total_days

instance : DecidableRel fbRel := fun a b =>
  inferInstanceAs (Decidable (b.total_days ≤ a.total_days))

instance : IsTotal AttStatsRow fbRel := ⟨fun a b => Nat.le_total b.total_days a.total_days⟩

instance : IsTrans AttStatsRow fbRel :=
  ⟨fun _ _ _ hab hbc => Nat.le_trans hbc hab⟩

/-- app.py lines 576-577: the fallback leaderboard built directly from the
fact table when no roster comparison exists. -/
def fallback_leaderboard (df : List AttFact) : List (Nat × AttStatsRow) :=
  addRank (List.insertionSort fbRel (attendance_stats df))

/-- A merged row with 2 sign-ins, both late (spec-modelled points: 4). -/
def mrowEve : MergedRow :=
  { person_id := 10, name := "EVE", department := "OPS", name_clean := "EVE"
    total_days := 2, on_time_days := 0, late_days := 2
    on_time_percentage := 0, attendance_status := "Occasional" }

/-- A merged row with 1 sign-in, on time (spec-modelled points: 10). -/
def mrowFay : MergedRow :=
  { person_id := 11, name := "FAY", department := "OPS", name_clean := "FAY"
    total_days := 1, on_time_days := 1, late_days := 0
    on_time_percentage := 1000, attendance_status := "Occasional" }

/-! ## Period Rollup Builder (`create_time_period_report`) -/

/-- The `period_type` argument of `create_time_period_report`. -/
inductive PeriodType where
  | week
  | month
deriving DecidableEq, Repr

/-- The grouping column: `week_identifier` for weeks, `month_year` for months
(app.py lines 356-363). -/
def labelOf (ptype : PeriodType) (f : AttFact) : String :=
  match ptype with
  | .week => f.week_label
  | .month => f.month_year

/-- One row of the period statistics frame (app.py lines 366-377). -/
structure PeriodRow where
  label : String
  unique_staff : Nat
  total_signins : Nat
  on_time : Nat
  late : Nat
  on_time_pct : Nat
  attendance_rate_pct : Nat
deriving DecidableEq, Repr

/-- `int(x.split('-')[0])` of a week label (app.py line 384). -/
def weekYearOf (s : String) : Nat :=
  digitsToNat (s.data.takeWhile (fun c => c ≠ '-'))

/-- `int(x.split('-W')[1])` of a week label (app.py line 384). -/
def weekNumOf (s : String) : Nat :=
  digitsToNat ((s.data.dropWhile (fun c => c ≠ '-')).drop 2)

/-- The chronological key of the week categorical (line 384): year dominates;
ISO week numbers are below 100. -/
def weekSortKey (s : String) : Nat := weekYearOf s * 100 + weekNumOf s

/-- Inverse of `monthAbbrev`, the month field of
`pd.to_datetime(label, format="%b %Y")`. -/
def monthNum : String → Nat
  | "Jan" => 1 | "Feb" => 2 | "Mar" => 3 | "Apr" => 4
  | "May" => 5 | "Jun" => 6 | "Jul" => 7 | "Aug" => 8
  | "Sep" => 9 | "Oct" => 10 | "Nov" => 11 | "Dec" => 12
  | _ => 0

/-- The chronological key of a `"%b %Y"` month label, i.e. the ordering of
the `sort_date` column of app.py line 389. -/
def monthSortKey (s : String) : Nat :=
  digitsToNat ((s.data.dropWhile (fun c => c ≠ ' ')).drop 1) * 12
    + monthNum ⟨s.data.takeWhile (fun c => c ≠ ' ')⟩

/-- Lexicographic order on plain string labels, as pandas
`sort_values` uses for a string column. -/
def strLexRel (a b : String) : Prop := strLeB a b = true

instance : DecidableRel strLexRel := fun a b =>
  inferInstanceAs (Decidable (strLeB a b = true))

/-- `sort_values` on the plain string period column (app.py line 393 for the
month report, where the column is NOT categorical). -/
def periodLexRel (a b : PeriodRow) : Prop := strLeB a.label b.label = true

instance : DecidableRel periodLexRel := fun a b =>
  inferInstanceAs (Decidable (strLeB a.label b.label = true))

/-- `sort_values` on the week column after it was made an ordered categorical
with chronologically sorted categories (app.py lines 382-385 and 393). -/
def weekChronRel (a b : PeriodRow) : Prop := weekSortKey a.label ≤ weekSortKey b.label

instance : DecidableRel weekChronRel := fun a b =>
  inferInstanceAs (Decidable (weekSortKey a.label ≤ weekSortKey b.label))

/-- `sort_values("sort_date")` (app.py line 390). -/
def monthChronRel (a b : PeriodRow) : Prop := monthSortKey a.label ≤ monthSortKey b.label

instance : DecidableRel monthChronRel := fun a b =>
  inferInstanceAs (Decidable (monthSortKey a.label ≤ monthSortKey b.label))

/-- app.py lines 351-395.  Group the facts by the period column (pandas
groupby sorts the distinct keys lexically), compute per-period statistics,
then sort: for weeks the period column is converted to an ordered
categorical whose categories are sorted chronologically, so the final
`sort_values(period_name)` of line 393 is chronological; for months the code
sorts by the parsed `sort_date` (line 390), drops it (line 391) — and then
line 393 re-sorts the plain string column lexically, which is what the
caller receives. -/
def create_time_period_report (df : List AttFact) (ptype : PeriodType) :
    List PeriodRow :=
  if df.isEmpty then []
  else
    let keys := List.insertionSort strLexRel (dedupFirst (df.map (labelOf ptype)))
    let period_stats := keys.map (fun lab =>
      let fs := df.filter (fun f => labelOf ptype f = lab)
      { label := lab
        unique_staff := (dedupFirst (fs.map (fun f => f.name))).length
        total_signins := fs.length
        on_time := (fs.filter (fun f => f.on_time)).length
        late := (fs.filter (fun f => f.late)).length
        on_time_pct := (fs.filter (fun f => f.on_time)).length * 1000 / fs.length
        attendance_rate_pct :=
          (dedupFirst (fs.map (fun f => f.name))).length * 1000
            / (dedupFirst (df.map (fun f => f.name))).length })
    match ptype with
    | .week => List.insertionSort weekChronRel period_stats
    | .month =>
        List.insertionSort periodLexRel
          (List.insertionSort monthChronRel period_stats)

/-- An on-time sign-in for ALICE on 2025-04-10 (month "Apr 2025"). -/
def rawAprAlice : RawRow :=
  { person_id := 1, name := "ALICE", department := "OPS"
    date := ⟨2025, 4, 10⟩, week_num := 15, week_year := 2025
    sign_in_time := some 440, sign_out_time := some 1000 }

/-- A sign-in in ISO week 9 of 2025 (label "2025-W9"). -/
def rawW9 : RawRow :=
  { person_id := 1, name := "ALICE", department := "OPS"
    date := ⟨2025, 2, 25⟩, week_num := 9, week_year := 2025
    sign_in_time := some 450, sign_out_time := some 1020 }

/-- A sign-in in ISO week 10 of 2025 (label "2025-W10"). -/
def rawW10 : RawRow :=
  { person_id := 1, name := "ALICE", department := "OPS"
    date := ⟨2025, 3, 4⟩, week_num := 10, week_year := 2025
    sign_in_time := some 450, sign_out_time := some 1020 }

/-! ## Theorems -/

/-- C3: for every processed attendance fact, `on_time` is true iff
`sign_in_time <= LATE_TIME` (default 08:00 = 480 minutes), and facts with a
null `sign_in_time` are excluded from the processed table (so a null sign-in
is never on time and never scored): the processed table has exactly one row
per raw row with a non-null sign-in. -/
theorem on_time_iff_before_late_threshold (rows : List RawRow) :
    (∀ f, f ∈ process_excel_file rows →
      (f.on_time = true ↔ f.sign_in_time ≤ LATE_TIME))
    ∧ (process_excel_file rows).length
        = (rows.filter (fun r => r.sign_in_time.isSome)).length := by
  constructor
  · intro f hf
    obtain ⟨r, _, hr⟩ := List.mem_filterMap.mp hf
    cases hsi : r.sign_in_time with
    | none => rw [hsi] at hr; simp at hr
    | some t =>
      rw [hsi] at hr
      simp only [Option.some.injEq] at hr
      subst hr
      simp [Nat.not_lt]
  · induction rows with
    | nil => simp [process_excel_file]
    | cons r rs ih =>
      cases hsi : r.sign_in_time <;>
        simp_all [process_excel_file, List.filterMap_cons, List.filter_cons]

/-- Witness for `on_time_iff_before_late_threshold` at a concrete input:
ALICE's 7:30 sign-in is on time, and the null-sign-in row is dropped. -/
theorem on_time_iff_before_late_threshold_witness :
    (factAlice.on_time = true ↔ factAlice.sign_in_time ≤ LATE_TIME)
    ∧ (process_excel_file [rawAlice, rawNoSignIn]).length = 1 :=
  ⟨(on_time_iff_before_late_threshold [rawAlice, rawNoSignIn]).1 factAlice
      (by decide),
   ((on_time_iff_before_late_threshold [rawAlice, rawNoSignIn]).2).trans
      (by decide)⟩

theorem mem_dedupAux [DecidableEq α] (a : α) (l : List α) :
    ∀ seen, a ∈ dedupAux seen l ↔ a ∈ l ∧ a ∉ seen := by
  induction l with
  | nil => intro seen; simp [dedupAux]
  | cons x xs ih =>
    intro seen
    by_cases hx : x ∈ seen <;> by_cases hax : a = x <;>
      simp_all [dedupAux]

theorem mem_dedupFirst [DecidableEq α] (a : α) (l : List α) :
    a ∈ dedupFirst l ↔ a ∈ l := by
  simp [dedupFirst, mem_dedupAux]

@[simp] theorem withClean_name (f : AttFact) : (withClean f).name = f.name := rfl

@[simp] theorem withCleanR_name (e : RosterEntry) : (withCleanR e).name = e.name := rfl

theorem attending_contains_iff (facts : List AttFact) (x : String) :
    ((dedupFirst ((facts.map withClean).map (fun f => cleanName f.name))).contains x = true)
      ↔ ∃ f ∈ facts, cleanName f.name = x := by
  rw [List.elem_iff, mem_dedupFirst]
  constructor
  · intro h
    rcases List.mem_map.mp h with ⟨f, hf, hfx⟩
    rcases List.mem_map.mp hf with ⟨f0, hf0, rfl⟩
    exact ⟨f0, hf0, hfx⟩
  · rintro ⟨f, hf, rfl⟩
    exact List.mem_map.mpr ⟨withClean f, List.mem_map.mpr ⟨f, hf, rfl⟩, rfl⟩

theorem roster_contains_iff (roster : List RosterEntry) (x : String) :
    ((dedupFirst ((roster.map withCleanR).map (fun e => cleanName e.name))).contains x = true)
      ↔ ∃ e ∈ roster, cleanName e.name = x := by
  rw [List.elem_iff, mem_dedupFirst]
  constructor
  · intro h
    rcases List.mem_map.mp h with ⟨e, he, hex⟩
    rcases List.mem_map.mp he with ⟨e0, he0, rfl⟩
    exact ⟨e0, he0, hex⟩
  · rintro ⟨e, he, rfl⟩
    exact List.mem_map.mpr ⟨withCleanR e, List.mem_map.mpr ⟨e, he, rfl⟩, rfl⟩

theorem not_contains_eq_decide {c : Bool} {P : Prop} [Decidable P]
    (h : c = true ↔ ¬ P) : (!c) = decide P := by
  by_cases hP : P
  · have hc : c = false := by
      cases hcc : c
      · rfl
      · exact absurd (h.mp hcc) (not_not_intro hP)
    simp [hc, hP]
  · have hc : c = true := h.mpr hP
    simp [hc, hP]

theorem exists_mem_iff_not_forall_ne {α : Type} (l : List α) (g : α → String) (x : String) :
    (∃ f ∈ l, g f = x) ↔ ¬ ∀ f ∈ l, g f ≠ x := by
  constructor
  · rintro ⟨f, hf, hfx⟩ hall
    exact hall f hf hfx
  · intro h
    by_contra hno
    exact h (fun f hf hfx => hno ⟨f, hf, hfx⟩)

/-- C4 (amended): for every NON-EMPTY fact table and NON-EMPTY roster, the
Roster Reconciler partitions by normalized (trimmed, uppercased) name:
`non_attending` is exactly the roster rows (carrying their freshly assigned
`name_clean` column) whose normalized name matches no fact, and
`attendance_only` holds `(name, department)` exactly for the facts whose
normalized name is absent from the roster. -/
theorem roster_partition (facts : List AttFact) (roster : List RosterEntry)
    (hf : facts ≠ []) (hr : roster ≠ []) :
    (compare_staff_lists facts roster).non_attending
      = (roster.map withCleanR).filter
          (fun e => decide (∀ f ∈ facts, cleanName f.name ≠ cleanName e.name))
    ∧ (∀ n d, (n, d) ∈ (compare_staff_lists facts roster).attendance_only
        ↔ ((∃ f ∈ facts, f.name = n ∧ f.department = d)
            ∧ ∀ e ∈ roster, cleanName e.name ≠ cleanName n)) := by
  have hfe : facts.isEmpty = false := List.isEmpty_eq_false.mpr hf
  have hre : roster.isEmpty = false := List.isEmpty_eq_false.mpr hr
  constructor
  · show (compare_staff_lists facts roster).non_attending = _
    simp only [compare_staff_lists, hfe, hre, Bool.or_self, Bool.false_eq_true,
      if_false]
    refine List.filter_congr ?_
    intro e _
    exact not_contains_eq_decide
      ((attending_contains_iff facts (cleanName e.name)).trans
        (exists_mem_iff_not_forall_ne facts (fun f => cleanName f.name) (cleanName e.name)))
  · intro n d
    simp only [compare_staff_lists, hfe, hre, Bool.or_self, Bool.false_eq_true,
      if_false]
    rw [mem_dedupFirst]
    constructor
    · intro h
      rcases List.mem_map.mp h with ⟨f, hfmem, hpair⟩
      rcases List.mem_filter.mp hfmem with ⟨hfmem', hcond⟩
      rcases List.mem_map.mp hfmem' with ⟨f0, hf0, rfl⟩
      have hn : f0.name = n := by
        have := congrArg Prod.fst hpair
        simpa using this
      have hd : f0.department = d := by
        have := congrArg Prod.snd hpair
        simpa [withClean] using this
      refine ⟨⟨f0, hf0, hn, hd⟩, ?_⟩
      have hcf : (dedupFirst ((roster.map withCleanR).map
          (fun e => cleanName e.name))).contains (cleanName (withClean f0).name) = false := by
        revert hcond
        cases (dedupFirst ((roster.map withCleanR).map
            (fun e => cleanName e.name))).contains (cleanName (withClean f0).name) <;> simp
      simp only [withClean_name] at hcf
      intro e he heq
      rw [← hn] at heq
      have hct := (roster_contains_iff roster (cleanName f0.name)).mpr ⟨e, he, heq⟩
      rw [hcf] at hct
      exact Bool.false_ne_true hct
    · rintro ⟨⟨f0, hf0, hn, hd⟩, hall⟩
      refine List.mem_map.mpr ⟨withClean f0, ?_, by simp [withClean, hn, hd]⟩
      refine List.mem_filter.mpr ⟨List.mem_map.mpr ⟨f0, hf0, rfl⟩, ?_⟩
      have hcf : (dedupFirst ((roster.map withCleanR).map
          (fun e => cleanName e.name))).contains (cleanName (withClean f0).name) = false := by
        cases hcc : (dedupFirst ((roster.map withCleanR).map
            (fun e => cleanName e.name))).contains (cleanName (withClean f0).name)
        · rfl
        · rcases (roster_contains_iff roster _).mp
            (by simpa [withClean_name] using hcc) with ⟨e, he, heq⟩
          exact absurd (by simpa [withClean, hn] using heq) (fun hq => hall e he hq)
      rw [hcf]
      rfl

/-- Counterexample to C4 as stated: with an EMPTY fact table and roster
`{CAROL}`, the claim requires the "never attended" partition to be the whole
roster (CAROL matches no fact), but `compare_staff_lists` early-returns three
empty frames when either input is empty (app.py lines 164-165). -/
theorem roster_partition_cex :
    (compare_staff_lists [] [rosterCarol]).non_attending = []
    ∧ (([rosterCarol].map withCleanR).filter
        (fun e => decide (∀ f ∈ ([] : List AttFact),
          cleanName f.name ≠ cleanName e.name)))
      = [withCleanR rosterCarol]
    ∧ ([] : List RosterEntry) ≠ [withCleanR rosterCarol] := by
  refine ⟨rfl, by decide, by decide⟩

/-- Witness for `roster_partition`: facts for ALICE and DANA against roster
`{ALICE, CAROL}` put CAROL in "never attended" and DANA in "unlisted". -/
theorem roster_partition_witness :
    (compare_staff_lists [factAlice, factDana] [rosterAliceE, rosterCarol]).non_attending
      = [withCleanR rosterCarol]
    ∧ ("DANA", "OPS")
        ∈ (compare_staff_lists [factAlice, factDana] [rosterAliceE, rosterCarol]).attendance_only :=
  ⟨((roster_partition [factAlice, factDana] [rosterAliceE, rosterCarol]
      (by decide) (by decide)).1).trans (by decide),
   ((roster_partition [factAlice, factDana] [rosterAliceE, rosterCarol]
      (by decide) (by decide)).2 "DANA" "OPS").mpr (by decide)⟩

/-- C9 (amended): `compare_staff_lists` mutates both of its inputs only by
assigning the derived `name_clean` column in place (app.py lines 168-169);
every other column of every input row is unchanged, and on the early-return
(either input empty) the inputs are untouched.  The remaining engine
operations (`calculate_kpis`, `create_attendance_leaderboard`,
`create_time_period_report`) are modelled as pure functions because the code
only reads their inputs and builds new frames. -/
theorem compare_staff_lists_frame (facts : List AttFact) (roster : List RosterEntry) :
    (compare_staff_lists facts roster).attendance_after.map stripClean
        = facts.map stripClean
    ∧ (compare_staff_lists facts roster).staff_list_after.map stripCleanR
        = roster.map stripCleanR := by
  rw [compare_staff_lists]
  split
  · exact ⟨rfl, rfl⟩
  · constructor
    · show (facts.map withClean).map stripClean = facts.map stripClean
      rw [List.map_map]
      rfl
    · show (roster.map withCleanR).map stripCleanR = roster.map stripCleanR
      rw [List.map_map]
      rfl

/-- Counterexample to C9 as stated: calling `compare_staff_lists` on a
one-fact table and a one-entry roster leaves the fact table changed — the
`name_clean` column has been added to it in place — so the inputs are NOT
left unchanged. -/
theorem compare_staff_lists_mutates_cex :
    (compare_staff_lists [factAlice] [rosterAliceE]).attendance_after ≠ [factAlice]
    ∧ (compare_staff_lists [factAlice] [rosterAliceE]).staff_list_after ≠ [rosterAliceE] := by
  refine ⟨by decide, by decide⟩

/-- Counterexample to C6 as stated: with no roster, `calculate_kpis` leaves
`absent_today` at its base value `0` (app.py line 293, "Will be calculated
below if staff list is provided"), so with one fact on a day other than
"today" the claimed value `total_staff - present_today = 1` differs from the
computed `0`. -/
theorem absent_today_cex :
    (calculate_kpis [factAlice] [] today0).absent_today
      ≠ ((calculate_kpis [factAlice] [] today0).total_staff : Int)
        - ((calculate_kpis [factAlice] [] today0).present_today : Int) := by
  decide

/-- C6 (amended): `absent_today` is `0` whenever no (or an empty) roster is
supplied, and `max(0, roster_size - present_today)` when a non-empty roster
accompanies a non-empty fact table (app.py lines 293 and 316). -/
theorem absent_today_amended (df : List AttFact) (roster : List RosterEntry)
    (today : Date) :
    (calculate_kpis df [] today).absent_today = 0
    ∧ (roster ≠ [] → df ≠ [] →
        (calculate_kpis df roster today).absent_today
          = max 0 ((roster.length : Int)
              - ((calculate_kpis df roster today).present_today : Int))) := by
  constructor
  · rw [calculate_kpis]
    split
    · rfl
    · rfl
  · intro hr hd
    have hre : roster.isEmpty = false := List.isEmpty_eq_false.mpr hr
    have hde : df.isEmpty = false := List.isEmpty_eq_false.mpr hd
    simp only [calculate_kpis, hre, hde, Bool.false_eq_true, if_false]

/-- Witness for `absent_today_amended`: one fact dated 2025-01-15, a
two-person roster and "today" = 2025-01-16 give `absent_today = 2`. -/
theorem absent_today_amended_witness :
    (calculate_kpis [factAlice] [rosterAliceE, rosterCarol] today0).absent_today = 2 :=
  ((absent_today_amended [factAlice] [rosterAliceE, rosterCarol] today0).2
    (by decide) (by decide)).trans (by decide)

/-- C7: every division in the engine is guarded and returns the sentinel 0 at
a zero denominator, never failing: the on-time rate with zero total sign-ins,
the attendance rate with a zero-size roster, the per-person on-time
percentage with zero sign-in days, and the average sign-ins on an empty fact
table (zero staff) all evaluate to 0.  (Totality of the Lean definitions is
the "never raises" part.) -/
theorem division_guards (df : List AttFact) (roster : List RosterEntry)
    (today : Date) (a : Nat) :
    ((calculate_kpis df roster today).total_signins = 0 →
        (calculate_kpis df roster today).on_time_rate = 0)
    ∧ attendance_rate_calc a 0 = 0
    ∧ pct_calc a 0 = 0
    ∧ (calculate_kpis [] roster today).avg_signins = 0 := by
  refine ⟨?_, rfl, rfl, by rw [calculate_kpis]; rfl⟩
  intro h
  by_cases hde : df.isEmpty <;> by_cases hre : roster.isEmpty <;>
    simp_all [calculate_kpis]

/-- Witness for `division_guards`: the empty session has zero sign-ins and an
on-time rate of 0. -/
theorem division_guards_witness :
    (calculate_kpis [] [] today0).total_signins = 0
    ∧ (calculate_kpis [] [] today0).on_time_rate = 0 :=
  ⟨by decide, (division_guards [] [] today0 5).1 (by decide)⟩

theorem length_filter_on_time_add_late (l : List AttFact)
    (h : ∀ f ∈ l, f.late = !f.on_time) :
    (l.filter (fun f => f.on_time)).length + (l.filter (fun f => f.late)).length
      = l.length := by
  induction l with
  | nil => simp
  | cons f fs ih =>
    have hf := h f (List.mem_cons_self f fs)
    have ih' := ih (fun g hg => h g (List.mem_cons_of_mem _ hg))
    cases hot : f.on_time <;> rw [hot] at hf <;>
      simp [List.filter_cons, hf, hot] <;> omega

/-- C10: on every processed fact table, `on_time` and `late` are exact
complements row by row (`on_time = ~late`, app.py lines 91-92), hence
`total_signins = total_on_time + total_late` equals the number of fact rows;
and the clamped KPIs `absent_today` and `non_attending_staff` are never
negative for any input (app.py lines 314 and 316). -/
theorem complement_and_clamps (rows : List RawRow) (df : List AttFact)
    (roster : List RosterEntry) (today : Date) :
    (∀ f ∈ process_excel_file rows, f.on_time = !f.late ∧ f.late = !f.on_time)
    ∧ (calculate_kpis (process_excel_file rows) roster today).total_signins
        = (process_excel_file rows).length
    ∧ 0 ≤ (calculate_kpis df roster today).absent_today
    ∧ (∀ v, (calculate_kpis df roster today).non_attending_staff = some v →
        0 ≤ v) := by
  have hcompl : ∀ f ∈ process_excel_file rows, f.on_time = !f.late ∧ f.late = !f.on_time := by
    intro f hf
    obtain ⟨r, _, hr⟩ := List.mem_filterMap.mp hf
    cases hsi : r.sign_in_time with
    | none => rw [hsi] at hr; simp at hr
    | some t =>
      rw [hsi] at hr
      simp only [Option.some.injEq] at hr
      subst hr
      simp
  refine ⟨hcompl, ?_, ?_, ?_⟩
  · by_cases hE : (process_excel_file rows).isEmpty
    · have : process_excel_file rows = [] := by
        cases hpe : process_excel_file rows
        · rfl
        · rw [hpe] at hE; simp at hE
      rw [this, calculate_kpis]
      rfl
    · have hsum := length_filter_on_time_add_late (process_excel_file rows)
        (fun f hf => (hcompl f hf).2)
      by_cases hre : roster.isEmpty <;>
        simp_all [calculate_kpis]
  · by_cases hde : df.isEmpty <;> by_cases hre : roster.isEmpty <;>
      simp_all [calculate_kpis]
  · intro v hv
    by_cases hde : df.isEmpty <;> by_cases hre : roster.isEmpty <;>
      simp_all [calculate_kpis] <;> omega

/-- Witness for `complement_and_clamps` on the sample session. -/
theorem complement_and_clamps_witness :
    (factAlice.on_time = !factAlice.late ∧ factAlice.late = !factAlice.on_time)
    ∧ (calculate_kpis (process_excel_file [rawAlice, rawNoSignIn]) [rosterAliceE]
        today0).total_signins = (process_excel_file [rawAlice, rawNoSignIn]).length
    ∧ 0 ≤ (calculate_kpis [factAlice] [rosterAliceE] today0).absent_today
    ∧ 0 ≤ (0 : Int) :=
  ⟨(complement_and_clamps [rawAlice, rawNoSignIn] [factAlice] [rosterAliceE] today0).1
      factAlice (by decide),
   (complement_and_clamps [rawAlice, rawNoSignIn] [factAlice] [rosterAliceE] today0).2.1,
   (complement_and_clamps [rawAlice, rawNoSignIn] [factAlice] [rosterAliceE] today0).2.2.1,
   (complement_and_clamps [rawAlice, rawNoSignIn] [factAlice] [rosterAliceE] today0).2.2.2
      0 (by decide)⟩

/-- C2: for every `PersonAggregate`, `points` equals
`on_time_count * POINTS_ON_TIME + late_count * POINTS_LATE`, and the default
weights are 10 and 2. -/
theorem person_aggregate_points (cfg : ScoringConfig) (nm dept : String)
    (facts : List AttFact) :
    (personAggregate cfg nm dept facts).points
      = (personAggregate cfg nm dept facts).on_time_count * cfg.points_on_time
        + (personAggregate cfg nm dept facts).late_count * cfg.points_late
    ∧ defaultScoring.points_on_time = 10
    ∧ defaultScoring.points_late = 2 :=
  ⟨rfl, rfl, rfl⟩

theorem length_addRankFrom {α : Type} (k : Nat) (l : List α) :
    (addRankFrom k l).length = l.length := by
  induction l generalizing k with
  | nil => rfl
  | cons x xs ih => simp [addRankFrom, ih]

theorem get_addRankFrom {α : Type} (l : List α) :
    ∀ (k i : Nat) (h : i < (addRankFrom k l).length) (h2 : i < l.length),
      (addRankFrom k l).get ⟨i, h⟩ = (k + i, l.get ⟨i, h2⟩) := by
  induction l with
  | nil => intro k i h h2; exact absurd h2 (by simp)
  | cons x xs ih =>
    intro k i h h2
    cases i with
    | zero => simp [addRankFrom]
    | succ j =>
      have hj : j < (addRankFrom (k + 1) xs).length := by
        simpa [addRankFrom] using h
      have hj2 : j < xs.length := by simpa using h2
      show (addRankFrom (k + 1) xs).get ⟨j, hj⟩ = _
      rw [ih (k + 1) j hj hj2]
      have : k + 1 + j = k + (j + 1) := by omega
      rw [this]
      rfl

theorem mem_addRankFrom {α : Type} (l : List α) :
    ∀ (k : Nat) (p : Nat × α), p ∈ addRankFrom k l → p.2 ∈ l := by
  induction l with
  | nil => intro k p hp; simp [addRankFrom] at hp
  | cons x xs ih =>
    intro k p hp
    rcases List.mem_cons.mp hp with rfl | hp
    · exact List.mem_cons_self _ _
    · exact List.mem_cons_of_mem _ (ih (k + 1) p hp)

theorem addRank_rank {α : Type} (l : List α) (i : Nat)
    (h : i < (addRank l).length) : ((addRank l).get ⟨i, h⟩).1 = i + 1 := by
  have h2 : i < l.length := by
    have h' : i < (addRankFrom 1 l).length := h
    rw [length_addRankFrom] at h'
    exact h'
  show ((addRankFrom 1 l).get ⟨i, h⟩).1 = i + 1
  rw [get_addRankFrom l 1 i h h2]
  simp [Nat.add_comm]

theorem addRank_snd {α : Type} (l : List α) (i : Nat)
    (h : i < (addRank l).length) (h2 : i < l.length) :
    ((addRank l).get ⟨i, h⟩).2 = l.get ⟨i, h2⟩ := by
  show ((addRankFrom 1 l).get ⟨i, h⟩).2 = l.get ⟨i, h2⟩
  rw [get_addRankFrom l 1 i h h2]

theorem addRank_sorted_adjacent {α : Type} (r : α → α → Prop) [DecidableRel r]
    [IsTotal α r] [IsTrans α r] (l : List α) (i : Nat)
    (h : i + 1 < (addRank (List.insertionSort r l)).length) :
    r ((addRank (List.insertionSort r l)).get ⟨i, Nat.lt_of_succ_lt h⟩).2
      ((addRank (List.insertionSort r l)).get ⟨i + 1, h⟩).2 := by
  have hlen := length_addRankFrom 1 (List.insertionSort r l)
  have h2 : i + 1 < (List.insertionSort r l).length := by
    rw [← hlen]
    exact h
  rw [addRank_snd _ _ h h2, addRank_snd _ _ (Nat.lt_of_succ_lt h) (Nat.lt_of_succ_lt h2)]
  exact (List.sorted_insertionSort r l).rel_get_of_lt
    (Fin.mk_lt_mk.mpr (Nat.lt_succ_self i))

/-- Counterexample to C1 as stated: `create_attendance_leaderboard` sorts by
`total_days` (then on-time percentage), not by points, so EVE (2 late days,
4 points) outranks FAY (1 on-time day, 10 points) and the leaderboard's
point sequence 4, 10 is strictly INCREASING — not non-increasing. -/
theorem leaderboard_not_sorted_by_points_cex :
    ((create_attendance_leaderboard [mrowFay, mrowEve]).map
        (fun p => (p.1, pointsOf p.2))) = [(1, 4), (2, 10)]
    ∧ 4 < 10 := by
  refine ⟨by decide, by decide⟩

/-- C1 (amended): every leaderboard (the roster-merged one and the fallback
one) is non-increasing in its sort key `total_days`, and the `rank` column is
the 1-based row position — strictly increasing by 1 starting at 1, so two
rows with equal keys at positions 2 and 3 still receive ranks 2 and 3. -/
theorem leaderboard_rank_and_order (merged_df : List MergedRow) (df : List AttFact) :
    (∀ i (h : i < (create_attendance_leaderboard merged_df).length),
        ((create_attendance_leaderboard merged_df).get ⟨i, h⟩).1 = i + 1)
    ∧ (∀ i (h : i + 1 < (create_attendance_leaderboard merged_df).length),
        ((create_attendance_leaderboard merged_df).get ⟨i + 1, h⟩).2.total_days
          ≤ ((create_attendance_leaderboard merged_df).get
              ⟨i, Nat.lt_of_succ_lt h⟩).2.total_days)
    ∧ (∀ i (h : i < (fallback_leaderboard df).length),
        ((fallback_leaderboard df).get ⟨i, h⟩).1 = i + 1)
    ∧ (∀ i (h : i + 1 < (fallback_leaderboard df).length),
        ((fallback_leaderboard df).get ⟨i + 1, h⟩).2.total_days
          ≤ ((fallback_leaderboard df).get
              ⟨i, Nat.lt_of_succ_lt h⟩).2.total_days) := by
  refine ⟨?_, ?_, ?_, ?_⟩
  · intro i h
    cases merged_df with
    | nil => simp [create_attendance_leaderboard] at h
    | cons m ms => exact addRank_rank (List.insertionSort ldRel (m :: ms)) i h
  · intro i h
    cases merged_df with
    | nil => simp [create_attendance_leaderboard] at h
    | cons m ms =>
      have hrel := addRank_sorted_adjacent ldRel (m :: ms) i h
      show ((addRank (List.insertionSort ldRel (m :: ms))).get
            ⟨i + 1, h⟩).2.total_days
          ≤ ((addRank (List.insertionSort ldRel (m :: ms))).get
            ⟨i, Nat.lt_of_succ_lt h⟩).2.total_days
      rcases hrel with h1 | ⟨h1, _⟩ <;> omega
  · intro i h
    exact addRank_rank (List.insertionSort fbRel (attendance_stats df)) i h
  · intro i h
    exact addRank_sorted_adjacent fbRel (attendance_stats df) i h

/-- Witness for `leaderboard_rank_and_order` on concrete leaderboards. -/
theorem leaderboard_rank_and_order_witness :
    ((create_attendance_leaderboard [mrowFay, mrowEve]).get ⟨1, by decide⟩).1 = 2
    ∧ ((create_attendance_leaderboard [mrowFay, mrowEve]).get
          ⟨1, by decide⟩).2.total_days
        ≤ ((create_attendance_leaderboard [mrowFay, mrowEve]).get
          ⟨0, by decide⟩).2.total_days
    ∧ ((fallback_leaderboard [factAlice, factDana]).get ⟨0, by decide⟩).1 = 1 :=
  ⟨(leaderboard_rank_and_order [mrowFay, mrowEve] [factAlice, factDana]).1
      1 (by decide),
   (leaderboard_rank_and_order [mrowFay, mrowEve] [factAlice, factDana]).2.1
      0 (by decide),
   (leaderboard_rank_and_order [mrowFay, mrowEve] [factAlice, factDana]).2.2.1
      0 (by decide)⟩

/-- Counterexample to C8 as stated: with roster `{ALICE, CAROL}` and a single
fact for ALICE, `merged_df` keeps CAROL with `total_days = 0` (the left merge
fills missing aggregates with 0, app.py line 209) and
`create_attendance_leaderboard` ranks her — so the leaderboard contains a row
with zero sign-ins. -/
theorem leaderboard_zero_days_cex :
    ((create_attendance_leaderboard
        (compare_staff_lists [factAlice] [rosterAliceE, rosterCarol]).merged).map
      (fun p => (p.1, p.2.total_days))) = [(1, 1), (2, 0)]
    ∧ ((create_attendance_leaderboard
        (compare_staff_lists [factAlice] [rosterAliceE, rosterCarol]).merged).get
      ⟨1, by decide⟩).2.total_days = 0 := by
  refine ⟨by decide, by decide⟩

/-- C8 (amended): the fallback leaderboard (built from the fact table alone,
app.py lines 562-577) only contains persons with at least one sign-in, since
its rows are the groupby keys of the facts; the roster-merged leaderboard,
by contrast, includes roster entries with zero sign-ins (see the
counterexample). -/
theorem fallback_leaderboard_min_days (df : List AttFact) :
    ∀ p ∈ fallback_leaderboard df, 1 ≤ p.2.total_days := by
  intro p hp
  have h2 : p.2 ∈ List.insertionSort fbRel (attendance_stats df) :=
    mem_addRankFrom _ 1 p hp
  rw [List.mem_insertionSort] at h2
  rcases List.mem_map.mp h2 with ⟨nd, hnd, heq⟩
  rw [mem_dedupFirst] at hnd
  rcases List.mem_map.mp hnd with ⟨f, hf, rfl⟩
  have hmem : f ∈ df.filter (fun g =>
      g.name = (f.name, f.department).1 ∧ g.department = (f.name, f.department).2) :=
    List.mem_filter.mpr ⟨hf, by simp⟩
  have hlen : 0 < (df.filter (fun g =>
      g.name = (f.name, f.department).1
        ∧ g.department = (f.name, f.department).2)).length :=
    List.length_pos.mpr (List.ne_nil_of_mem hmem)
  rw [← heq]
  exact hlen

/-- Witness for `fallback_leaderboard_min_days`: the top row of the sample
fallback leaderboard has at least one sign-in day. -/
theorem fallback_leaderboard_min_days_witness :
    1 ≤ ((fallback_leaderboard [factAlice, factDana]).get
      ⟨0, by decide⟩).2.total_days :=
  fallback_leaderboard_min_days [factAlice, factDana] _
    (List.get_mem (fallback_leaderboard [factAlice, factDana]) 0 (by decide))

/-- C5 (code bug, month branch): with facts in Jan 2025 and Apr 2025 the
month rollup comes back ordered ["Apr 2025", "Jan 2025"] — lexically, not
chronologically — because line 393 re-sorts the plain string column after
the chronological sort of lines 389-391 ("Sort months chronologically")
already happened; the week branch does sort chronologically ("2025-W9"
before "2025-W10") even though the lexical order would reverse it. -/
theorem month_rollup_lexical_week_rollup_chronological :
    ((create_time_period_report (process_excel_file [rawAlice, rawAprAlice])
        PeriodType.month).map (fun p => p.label)) = ["Apr 2025", "Jan 2025"]
    ∧ monthSortKey "Jan 2025" < monthSortKey "Apr 2025"
    ∧ ((create_time_period_report (process_excel_file [rawW9, rawW10])
        PeriodType.week).map (fun p => p.label)) = ["2025-W9", "2025-W10"]
    ∧ strLtB "2025-W10" "2025-W9" = true := by
  refine ⟨by decide, by decide, by decide, by decide⟩
